import Mathlib

/- Verification of the RPC authorization subsystem of the grpc-proto repository.
   The definitions below are a shallow embedding of
   src/lib/middleware/serviceAuth.middleware.ts and of the auth-relevant part of
   src/lib/grpc.ts (GrpcServer.addService).  Database records are modelled as the
   middleware consumes them through its Prisma queries (included relations are
   flattened onto the record, exactly as the mocks in the repository tests do);
   the clock is an integer millisecond timestamp; the jsonwebtoken verifier is an
   oracle parameter (some payload = signature valid, none = jwt.verify throws). -/

namespace GrpcAuth

/- Permission row, as reached through rolePermissions[i].permission. -/
structure Permission where
  id : String
  name : String
deriving DecidableEq, Repr

/- Role row with its included rolePermissions[i].permission list flattened. -/
structure Role where
  id : String
  name : String
  rolePermissions : List Permission
deriving DecidableEq, Repr

/- Service row with its included serviceRoles[i].role list flattened. -/
structure Service where
  id : String
  name : String
  serviceRoles : List Role
deriving DecidableEq, Repr

/- The service relation included on an apiKey row (only id and name are read). -/
structure SvcRef where
  id : String
  name : String
deriving DecidableEq, Repr

/- ApiKey row, with the included service relation. -/
structure ApiKey where
  key : String
  service : SvcRef
  expiresAt : Int
  lastUsedAt : Option Int
  isRevoked : Bool
deriving DecidableEq, Repr

/- ServiceEndpoint row with its included permission. -/
structure ServiceEndpoint where
  serviceName : String
  endpointName : String
  permission : Permission
deriving DecidableEq, Repr

/- The database state visible to the middleware. -/
structure Db where
  services : List Service
  apiKeys : List ApiKey
  serviceEndpoints : List ServiceEndpoint
deriving DecidableEq, Repr

/- prisma.service.findUnique on the unique name column. -/
def serviceFindUnique (db : Db) (name : String) : Option Service :=
  db.services.find? (fun s => s.name == name)

/- prisma.apiKey.findUnique on the unique key column. -/
def apiKeyFindUnique (db : Db) (key : String) : Option ApiKey :=
  db.apiKeys.find? (fun ak => ak.key == key)

/- Whether an apiKey row with the given key exists (prisma.update succeeds). -/
def apiKeyExists (db : Db) (key : String) : Bool :=
  db.apiKeys.any (fun ak => ak.key == key)

/- prisma.apiKey.update setting lastUsedAt on the row with the given key. -/
def apiKeySetLastUsed (db : Db) (key : String) (now : Int) : Db :=
  { db with
    apiKeys := db.apiKeys.map (fun ak =>
      if ak.key == key then { ak with lastUsedAt := some now } else ak) }

/- prisma.apiKey.update setting isRevoked on the row with the given key. -/
def apiKeySetRevoked (db : Db) (key : String) : Db :=
  { db with
    apiKeys := db.apiKeys.map (fun ak =>
      if ak.key == key then { ak with isRevoked := true } else ak) }

/- gRPC status codes used by the middleware. -/
inductive Status where
  | UNAUTHENTICATED
  | PERMISSION_DENIED
deriving DecidableEq, Repr

/- Errors surfaced by the middleware: the thrown code-message objects, plus a
   rejected store promise (the persistence layer failing an awaited write). -/
inductive AuthErr where
  | grpcErr (code : Status) (message : String)
  | storeFailure
deriving DecidableEq, Repr

/- The JWT payload shape (ServiceJwtPayload) as read by the middleware. -/
structure ServiceJwtPayload where
  sub : String
  aud : String
  role : String
deriving DecidableEq, Repr

/- The payload returned by verifyApiKey. -/
structure ApiKeyPayload where
  serviceId : String
  serviceName : String
deriving DecidableEq, Repr

/- The service info attached to a gRPC call by checkServiceRole. -/
structure ServiceInfo where
  serviceId : String
  serviceName : String
  role : String
  permissions : List String
deriving DecidableEq, Repr

/- One character of the character class [a-f0-9] with the i flag. -/
def isHexChar (c : Char) : Bool :=
  (Nat.ble 48 c.toNat && Nat.ble c.toNat 57) ||
  (Nat.ble 97 c.toNat && Nat.ble c.toNat 102) ||
  (Nat.ble 65 c.toNat && Nat.ble c.toNat 70)

/- The api-key detection regex of verifyServiceToken, 64 case-insensitive
   hex characters anchored at both ends. -/
def isApiKeyFormat (s : String) : Bool :=
  s.length == 64 && s.toList.all isHexChar

/- JavaScript regex whitespace, restricted to the ASCII members of the class. -/
def isJsWhitespace (c : Char) : Bool :=
  c == ' ' || c == '\t' || c == '\n' || c == '\r' ||
  c == Char.ofNat 11 || c == Char.ofNat 12

/- token.replace applied with the pattern: caret, Bearer, one or more
   whitespace, case-insensitive.  When the prefix matches it is removed
   together with the whole run of whitespace; otherwise the string is kept. -/
def stripBearer (s : String) : String :=
  match s.toList with
  | c1 :: c2 :: c3 :: c4 :: c5 :: c6 :: c7 :: rest =>
    if c1.toLower == 'b' && c2.toLower == 'e' && c3.toLower == 'a' &&
       c4.toLower == 'r' && c5.toLower == 'e' && c6.toLower == 'r' &&
       isJsWhitespace c7 then
      String.mk (rest.dropWhile isJsWhitespace)
    else s
  | _ => s

/- Spreading an array through new Set: duplicates collapse, first occurrence
   order is kept. -/
def insertionDedup (l : List String) : List String :=
  l.foldl (fun acc x => if acc.contains x then acc else acc ++ [x]) []

/- The JavaScript or-else chain on strings and undefined: a defined non-empty
   string is truthy, undefined and the empty string fall through. -/
def strOrElse (o : Option String) (y : String) : String :=
  match o with
  | some s => if s == "" then y else s
  | none => y

/- verifyApiKey.  The clock is now; updateOk tells whether the awaited
   prisma.apiKey.update promise resolves (false models a rejected write, which
   the source does not catch). -/
def verifyApiKey (db : Db) (now : Int) (updateOk : Bool) (key : String) :
    Except AuthErr (ApiKeyPayload × Db) :=
  match apiKeyFindUnique db key with
  | none => .error (.grpcErr .UNAUTHENTICATED "Invalid API key")
  | some apiKey =>
    if apiKey.isRevoked then
      .error (.grpcErr .UNAUTHENTICATED "API key has been revoked")
    else if apiKey.expiresAt < now then
      .error (.grpcErr .UNAUTHENTICATED "API key has expired")
    else if updateOk then
      .ok (⟨apiKey.service.id, apiKey.service.name⟩, apiKeySetLastUsed db key now)
    else
      .error .storeFailure

/- verifyServiceToken.  jwtVerify is the jwt.verify oracle: some payload when
   the signature verifies under the shared secret, none when jwt.verify throws.
   The catch block inside the JWT branch folds the audience failure and the
   signature failure into the same UNAUTHENTICATED error. -/
def verifyServiceToken (db : Db) (now : Int) (updateOk : Bool)
    (jwtVerify : String → Option ServiceJwtPayload) (token : String) :
    Except AuthErr ((String × Bool) × Db) :=
  if isApiKeyFormat token then
    match verifyApiKey db now updateOk token with
    | .error e => .error e
    | .ok (payload, db1) => .ok ((payload.serviceName, true), db1)
  else
    match jwtVerify token with
    | none => .error (.grpcErr .UNAUTHENTICATED "Invalid service token")
    | some payload =>
      if payload.aud != "grpc_auth" then
        .error (.grpcErr .UNAUTHENTICATED "Invalid service token")
      else
        .ok ((payload.sub, false), db)

/- checkServiceRole: looks the service up by name, optionally requires a role,
   and builds the ServiceInfo attached to the call. -/
def checkServiceRole (db : Db) (serviceId : String) (requiredRole : Option String) :
    Except AuthErr ServiceInfo :=
  match serviceFindUnique db serviceId with
  | none => .error (.grpcErr .PERMISSION_DENIED "Service not found")
  | some service =>
    let serviceRoles := service.serviceRoles
    let roleOk := match requiredRole with
      | some rr => serviceRoles.any (fun r => r.name == rr)
      | none => true
    if !roleOk then
      .error (.grpcErr .PERMISSION_DENIED "Insufficient service role")
    else
      let permissions := serviceRoles.flatMap (fun r => r.rolePermissions.map (fun rp => rp.name))
      let primaryRole := match requiredRole with
        | some rr =>
          strOrElse ((serviceRoles.find? (fun r => r.name == rr)).map (fun r => r.name))
            (strOrElse ((serviceRoles.head?).map (fun r => r.name)) "")
        | none => strOrElse ((serviceRoles.head?).map (fun r => r.name)) ""
      .ok ⟨service.id, service.name, primaryRole, insertionDedup permissions⟩

/- checkServicePermission: true when some role of the service grants the
   permission; false when the service does not resolve. -/
def checkServicePermission (db : Db) (serviceId : String) (permissionName : String) : Bool :=
  match serviceFindUnique db serviceId with
  | none => false
  | some service =>
    service.serviceRoles.any (fun serviceRole =>
      serviceRole.rolePermissions.any (fun rp => rp.name == permissionName))

/- revokeApiKey: prisma.apiKey.update throws when no row matches the key
   (modelled as storeFailure), otherwise sets isRevoked. -/
def revokeApiKey (db : Db) (key : String) : Except AuthErr Db :=
  if apiKeyExists db key then
    .ok (apiKeySetRevoked db key)
  else
    .error .storeFailure

/- Outcome of one call through a registered handler: the business handler ran
   with a ServiceInfo attached, the business handler ran directly because no
   wrapper was installed, or the wrapper rejected the call before the business
   handler (the error that reaches the callback).  The db component is the
   store state when the outcome is reached. -/
inductive CallOutcome where
  | handled (info : ServiceInfo) (db : Db)
  | handledPlain (db : Db)
  | rejected (e : AuthErr) (db : Db)
deriving DecidableEq, Repr

/- requireServiceAuth, denotationally: meta is the value list stored under the
   service-authorization metadata key of the call. -/
def requireServiceAuth (requiredRole : Option String) (db : Db) (now : Int)
    (updateOk : Bool) (jwtVerify : String → Option ServiceJwtPayload)
    (meta : List String) : CallOutcome :=
  match meta with
  | [] => .rejected (.grpcErr .UNAUTHENTICATED "Missing service token") db
  | m :: _ =>
    match verifyServiceToken db now updateOk jwtVerify (stripBearer m) with
    | .error e => .rejected e db
    | .ok ((serviceName, _isApiKey), db1) =>
      match checkServiceRole db1 serviceName requiredRole with
      | .error e => .rejected e db1
      | .ok info => .handled info db1

/- requireServiceAuthWithPermission, denotationally. -/
def requireServiceAuthWithPermission (permissionName : String) (db : Db) (now : Int)
    (updateOk : Bool) (jwtVerify : String → Option ServiceJwtPayload)
    (meta : List String) : CallOutcome :=
  match meta with
  | [] => .rejected (.grpcErr .UNAUTHENTICATED "Missing service token") db
  | m :: _ =>
    match verifyServiceToken db now updateOk jwtVerify (stripBearer m) with
    | .error e => .rejected e db
    | .ok ((serviceName, _isApiKey), db1) =>
      if checkServicePermission db1 serviceName permissionName then
        match checkServiceRole db1 serviceName none with
        | .error e => .rejected e db1
        | .ok info => .handled info db1
      else
        .rejected (.grpcErr .PERMISSION_DENIED
          ("Service does not have permission: " ++ permissionName)) db1

/- What gets installed on the server for one method name: the original handler,
   or the handler wrapped by one of the two middlewares. -/
inductive Installed (H : Type) where
  | plain (h : H)
  | withRole (requiredRole : Option String) (h : H)
  | withPermission (permission : String) (h : H)
deriving DecidableEq, Repr

/- Running one installed entry on a call. -/
def runInstalled {H : Type} (inst : Installed H) (db : Db) (now : Int)
    (updateOk : Bool) (jwtVerify : String → Option ServiceJwtPayload)
    (meta : List String) : CallOutcome :=
  match inst with
  | .plain _ => .handledPlain db
  | .withRole rr _ => requireServiceAuth rr db now updateOk jwtVerify meta
  | .withPermission p _ => requireServiceAuthWithPermission p db now updateOk jwtVerify meta

/- requireServiceAuthGlobal: every method is wrapped with the role check. -/
def requireServiceAuthGlobal {H : Type} (impl : List (String × H))
    (requiredRole : Option String) : List (String × Installed H) :=
  impl.map (fun nh => (nh.1, Installed.withRole requiredRole nh.2))

/- The loop body of requireServiceAuthEndpoint: endpointPermissions[methodName]
   is wrapped only when the looked-up permission is defined and truthy. -/
def wrapEndpoint {H : Type} (endpointPermissions : List (String × String))
    (methodName : String) (h : H) : Installed H :=
  match endpointPermissions.lookup methodName with
  | some permission =>
    if permission != "" then Installed.withPermission permission h else Installed.plain h
  | none => Installed.plain h

/- requireServiceAuthEndpoint over the whole handler map. -/
def requireServiceAuthEndpoint {H : Type} (impl : List (String × H))
    (endpointPermissions : List (String × String)) : List (String × Installed H) :=
  impl.map (fun nh => (nh.1, wrapEndpoint endpointPermissions nh.1 nh.2))

/- Assignment into the permissions object: a later row for the same endpoint
   name overwrites the earlier one. -/
def objInsert (m : List (String × String)) (k v : String) : List (String × String) :=
  if m.any (fun kv => kv.1 == k) then
    m.map (fun kv => if kv.1 == k then (k, v) else kv)
  else
    m ++ [(k, v)]

/- getServiceEndpointPermissions: prisma.serviceEndpoint.findMany scoped by
   serviceName, folded into an endpoint-name keyed object. -/
def getServiceEndpointPermissions (db : Db) (serviceName : String) :
    List (String × String) :=
  (db.serviceEndpoints.filter (fun e => e.serviceName == serviceName)).foldl
    (fun acc e => objInsert acc e.endpointName e.permission.name) []

/- The level option of applyServiceAuthMiddleware. -/
inductive AuthLevel where
  | globalLevel
  | endpointLevel
deriving DecidableEq, Repr

/- The options object of applyServiceAuthMiddleware. -/
structure AuthOptions where
  level : Option AuthLevel
  requiredRole : Option String
  endpointPermissions : Option (List (String × String))
  serviceName : Option String
deriving DecidableEq, Repr

/- The second argument actually passed to applyServiceAuthMiddleware at its
   call sites: absent, an options object, or a bare string (GrpcServer.addService
   passes serviceDefinition.serviceName positionally).  Property access on a
   string or on undefined yields undefined. -/
inductive OptionsArg where
  | noArg
  | opts (o : AuthOptions)
  | strArg (s : String)
deriving DecidableEq, Repr

def OptionsArg.level : OptionsArg → Option AuthLevel
  | .opts o => o.level
  | _ => none

def OptionsArg.requiredRole : OptionsArg → Option String
  | .opts o => o.requiredRole
  | _ => none

def OptionsArg.endpointPermissions : OptionsArg → Option (List (String × String))
  | .opts o => o.endpointPermissions
  | _ => none

def OptionsArg.serviceName : OptionsArg → Option String
  | .opts o => o.serviceName
  | _ => none

/- applyServiceAuthMiddleware.  The level defaults to endpoint; at endpoint
   level an explicit endpointPermissions object is used as is, otherwise a
   truthy serviceName triggers the database fetch; with neither, the
   implementation is returned unchanged. -/
def applyServiceAuthMiddleware {H : Type} (db : Db) (impl : List (String × H))
    (options : OptionsArg) : List (String × Installed H) :=
  match options.level.getD AuthLevel.endpointLevel with
  | .globalLevel => requireServiceAuthGlobal impl options.requiredRole
  | .endpointLevel =>
    let ep : Option (List (String × String)) :=
      match options.endpointPermissions with
      | some e => some e
      | none =>
        match options.serviceName with
        | some sn =>
          if sn != "" then some (getServiceEndpointPermissions db sn) else none
        | none => none
    match ep with
    | some e => requireServiceAuthEndpoint impl e
    | none => impl.map (fun nh => (nh.1, Installed.plain nh.2))

/- The auth-relevant fields of a GrpcServiceDefinition. -/
structure GrpcServiceDefinition (H : Type) where
  serviceName : String
  implementation : List (String × H)
  applyAuth : Option Bool
deriving DecidableEq, Repr

/- The implementation GrpcServer.addService registers on the server: unless
   applyAuth is explicitly false it calls applyServiceAuthMiddleware, passing
   serviceDefinition.serviceName as the second positional argument, in the
   place of the options object. -/
def addServiceImplementation {H : Type} (db : Db) (sd : GrpcServiceDefinition H) :
    List (String × Installed H) :=
  if sd.applyAuth != some false then
    applyServiceAuthMiddleware db sd.implementation (OptionsArg.strArg sd.serviceName)
  else
    sd.implementation.map (fun nh => (nh.1, Installed.plain nh.2))

deriving instance DecidableEq for Except

/- Concrete fixtures mirroring the seed data used by the repository tests:
   service svc-a holds role admin granting user:get, service svc-b holds no
   roles, endpoint UserService.getUser requires user:get, and two live api
   keys exist, one per service. -/

def key64 : String := String.mk (List.replicate 64 'a')

def key64b : String := String.mk (List.replicate 64 'b')

def key64r : String := String.mk (List.replicate 64 'c')

def pGet : Permission := ⟨"perm-1", "user:get"⟩

def adminRole : Role := ⟨"role-1", "admin", [pGet]⟩

def svcA : Service := ⟨"service-1", "svc-a", [adminRole]⟩

def svcB : Service := ⟨"service-2", "svc-b", []⟩

def ak0 : ApiKey := ⟨key64, ⟨"service-1", "svc-a"⟩, 1000, none, false⟩

def akB : ApiKey := ⟨key64b, ⟨"service-2", "svc-b"⟩, 1000, none, false⟩

def akRev : ApiKey := ⟨key64r, ⟨"service-1", "svc-a"⟩, 1000, none, true⟩

def db0 : Db := ⟨[svcA, svcB], [ak0, akB], [⟨"UserService", "getUser", pGet⟩]⟩

def dbRev : Db := ⟨[svcA], [akRev], []⟩

def dbEmpty : Db := ⟨[], [], []⟩

def jv0 : String → Option ServiceJwtPayload := fun t =>
  if t == "ghost-token" then some ⟨"ghost", "grpc_auth", "admin"⟩
  else if t == "aud-token" then some ⟨"svc-a", "other", "admin"⟩
  else none

/- Passing a bare string in the options position: every property access on it
   yields undefined, so the endpoint level is selected with neither an override
   map nor a serviceName, and the implementation passes through unchanged. -/
theorem applyServiceAuthMiddleware_strArg {H : Type} (db : Db)
    (impl : List (String × H)) (s : String) :
    applyServiceAuthMiddleware db impl (OptionsArg.strArg s)
      = impl.map (fun nh => (nh.1, Installed.plain nh.2)) := rfl

/-- C1: refuted by the code (code bug).  GrpcServer.addService passes
serviceDefinition.serviceName as the second positional argument of
applyServiceAuthMiddleware, in the place of the options object, so
options.serviceName is undefined, the EndpointPolicyStore is never consulted,
and the handler map actually installed is the original unwrapped one — even
though the store holds a policy row for the service and the intended options
call would have wrapped the endpoint with the permission check. -/
theorem addService_registers_unwrapped_handlers_despite_policy :
    getServiceEndpointPermissions db0 "UserService" = [("getUser", "user:get")]
    ∧ addServiceImplementation db0 ⟨"UserService", [("getUser", ())], none⟩
        = [("getUser", Installed.plain ())]
    ∧ applyServiceAuthMiddleware db0 [("getUser", ())]
        (OptionsArg.opts ⟨none, none, none, some "UserService"⟩)
        = [("getUser", Installed.withPermission "user:get" ())] :=
  ⟨rfl, rfl, rfl⟩

/-- C2: counterexample.  A rotating credential that exists, is not revoked and
is not expired is presented while the last-used write fails: verification
returns an error instead of succeeding, and the wrapped call is rejected
without running the business handler, because the source awaits the
prisma.apiKey.update promise with no catch around it. -/
theorem lastUsed_write_failure_fails_call_cex :
    verifyApiKey db0 5 true key64
      = .ok (⟨"service-1", "svc-a"⟩, apiKeySetLastUsed db0 key64 5)
    ∧ verifyApiKey db0 5 false key64 = .error .storeFailure
    ∧ runInstalled (Installed.withPermission "user:get" ()) db0 5 false jv0 [key64]
        = .rejected .storeFailure db0 :=
  ⟨rfl, rfl, rfl⟩

/-- C2 (amended): the last-used write is awaited as part of verification, not
fire-and-forget: for a credential that exists, is not revoked and is not
expired, a failing write makes verification fail with the store error, while a
succeeding write lets verification succeed with lastUsedAt updated. -/
theorem lastUsed_write_awaited (db : Db) (now : Int) (key : String) (ak : ApiKey)
    (hfind : apiKeyFindUnique db key = some ak)
    (hrev : ak.isRevoked = false)
    (hexp : ¬ ak.expiresAt < now) :
    verifyApiKey db now false key = .error .storeFailure
    ∧ verifyApiKey db now true key
        = .ok (⟨ak.service.id, ak.service.name⟩, apiKeySetLastUsed db key now) := by
  constructor <;> simp [verifyApiKey, hfind, hrev, hexp]

/-- C2 witness: the amended statement instantiated on the concrete store. -/
theorem lastUsed_write_awaited_witness :
    verifyApiKey db0 5 false key64 = .error .storeFailure
    ∧ verifyApiKey db0 5 true key64
        = .ok (⟨ak0.service.id, ak0.service.name⟩, apiKeySetLastUsed db0 key64 5) :=
  lastUsed_write_awaited db0 5 key64 ak0 rfl rfl (by decide)

/-- C3: counterexample.  A validly signed token with the correct audience whose
subject resolves to no stored service is rejected with PERMISSION_DENIED
(Service not found, thrown by checkServiceRole), not with UNAUTHENTICATED as
the claim states. -/
theorem unknown_subject_permission_denied_cex :
    jv0 "ghost-token" = some ⟨"ghost", "grpc_auth", "admin"⟩
    ∧ serviceFindUnique db0 "ghost" = none
    ∧ requireServiceAuth none db0 5 true jv0 ["ghost-token"]
        = .rejected (.grpcErr .PERMISSION_DENIED "Service not found") db0 :=
  ⟨rfl, rfl, rfl⟩

/-- C3 (amended): a wrapped call presenting a validly signed, correct-audience
token whose subject does not resolve to a stored service is rejected with
PERMISSION_DENIED: the role wrapper answers Service not found, and the
permission wrapper answers a permission failure, so PERMISSION_DENIED can arise
from an unresolved identity as well, not only from an insufficient role or
permission of a resolved one. -/
theorem unknown_subject_rejected_permission_denied
    (rr : Option String) (db : Db) (now : Int) (upd : Bool)
    (jv : String → Option ServiceJwtPayload) (m : String)
    (payload : ServiceJwtPayload) (rest : List String)
    (hfmt : isApiKeyFormat (stripBearer m) = false)
    (hjv : jv (stripBearer m) = some payload)
    (haud : payload.aud = "grpc_auth")
    (hsvc : serviceFindUnique db payload.sub = none) :
    requireServiceAuth rr db now upd jv (m :: rest)
      = .rejected (.grpcErr .PERMISSION_DENIED "Service not found") db
    ∧ ∀ p, requireServiceAuthWithPermission p db now upd jv (m :: rest)
        = .rejected (.grpcErr .PERMISSION_DENIED
            ("Service does not have permission: " ++ p)) db := by
  have hv : verifyServiceToken db now upd jv (stripBearer m)
      = .ok ((payload.sub, false), db) := by
    simp [verifyServiceToken, hfmt, hjv, haud]
  constructor
  · simp [requireServiceAuth, hv, checkServiceRole, hsvc]
  · intro p
    simp [requireServiceAuthWithPermission, hv, checkServicePermission, hsvc]

/-- C3 witness: the amended statement instantiated on the concrete store. -/
theorem unknown_subject_rejected_permission_denied_witness :
    requireServiceAuth none db0 5 true jv0 ["ghost-token"]
      = .rejected (.grpcErr .PERMISSION_DENIED "Service not found") db0
    ∧ ∀ p, requireServiceAuthWithPermission p db0 5 true jv0 ["ghost-token"]
        = .rejected (.grpcErr .PERMISSION_DENIED
            ("Service does not have permission: " ++ p)) db0 :=
  unknown_subject_rejected_permission_denied none db0 5 true jv0 "ghost-token"
    ⟨"ghost", "grpc_auth", "admin"⟩ [] (by decide) rfl rfl rfl

/-- C4: counterexample.  A stored, never revoked credential whose expiresAt
equals the current time is accepted by verifyApiKey, while the claim requires
expiresAt strictly greater than now, so it asks for this credential to be
rejected as expired. -/
theorem expiry_boundary_accepted_cex :
    ak0.isRevoked = false
    ∧ ak0.expiresAt = 1000
    ∧ verifyApiKey db0 1000 true key64
        = .ok (⟨"service-1", "svc-a"⟩, apiKeySetLastUsed db0 key64 1000) :=
  ⟨rfl, rfl, rfl⟩

/-- C4 (amended): validation steps run exists, then revoked, then expired, each
failing step with its own distinct error message, but expiry rejects only when
expiresAt is strictly less than now: a credential with expiresAt greater than
or equal to the current time passes the expiry step. -/
theorem verifyApiKey_step_errors (db : Db) (now : Int) (upd : Bool) (key : String) :
    (apiKeyFindUnique db key = none →
      verifyApiKey db now upd key
        = .error (.grpcErr .UNAUTHENTICATED "Invalid API key"))
    ∧ (∀ ak, apiKeyFindUnique db key = some ak → ak.isRevoked = true →
        verifyApiKey db now upd key
          = .error (.grpcErr .UNAUTHENTICATED "API key has been revoked"))
    ∧ (∀ ak, apiKeyFindUnique db key = some ak → ak.isRevoked = false →
        ak.expiresAt < now →
        verifyApiKey db now upd key
          = .error (.grpcErr .UNAUTHENTICATED "API key has expired"))
    ∧ (∀ ak, apiKeyFindUnique db key = some ak → ak.isRevoked = false →
        now ≤ ak.expiresAt →
        verifyApiKey db now true key
          = .ok (⟨ak.service.id, ak.service.name⟩, apiKeySetLastUsed db key now)) := by
  refine ⟨?_, ?_, ?_, ?_⟩
  · intro h; simp [verifyApiKey, h]
  · intro ak h hrev; simp [verifyApiKey, h, hrev]
  · intro ak h hrev hexp; simp [verifyApiKey, h, hrev, hexp]
  · intro ak h hrev hexp; simp [verifyApiKey, h, hrev, not_lt.mpr hexp]

/-- C4 witness: each step of the amended statement exercised on a concrete
store: unknown key, revoked key, strictly past expiry, and a live key. -/
theorem verifyApiKey_step_errors_witness :
    verifyApiKey dbEmpty 0 true key64
      = .error (.grpcErr .UNAUTHENTICATED "Invalid API key")
    ∧ verifyApiKey dbRev 0 true key64r
        = .error (.grpcErr .UNAUTHENTICATED "API key has been revoked")
    ∧ verifyApiKey db0 2000 true key64
        = .error (.grpcErr .UNAUTHENTICATED "API key has expired")
    ∧ verifyApiKey db0 5 true key64
        = .ok (⟨ak0.service.id, ak0.service.name⟩, apiKeySetLastUsed db0 key64 5) :=
  ⟨(verifyApiKey_step_errors dbEmpty 0 true key64).1 rfl,
   (verifyApiKey_step_errors dbRev 0 true key64r).2.1 akRev rfl rfl,
   (verifyApiKey_step_errors db0 2000 true key64).2.2.1 ak0 rfl rfl (by decide),
   (verifyApiKey_step_errors db0 5 true key64).2.2.2 ak0 rfl rfl (by decide)⟩

/-- C6: confirmed.  checkServicePermission answers true exactly when the
permission name is granted by some role of the resolved service (a union over
roles); an unresolved service name and a service with no roles both fail
closed. -/
theorem checkServicePermission_union_iff (db : Db) (s p : String) :
    (checkServicePermission db s p = true ↔
      ∃ svc, serviceFindUnique db s = some svc ∧
        ∃ r ∈ svc.serviceRoles, ∃ perm ∈ r.rolePermissions, perm.name = p)
    ∧ (serviceFindUnique db s = none → checkServicePermission db s p = false)
    ∧ (∀ svc, serviceFindUnique db s = some svc → svc.serviceRoles = [] →
        checkServicePermission db s p = false) := by
  refine ⟨?_, ?_, ?_⟩
  · cases hfind : serviceFindUnique db s with
    | none => simp [checkServicePermission, hfind]
    | some svc => simp [checkServicePermission, hfind, List.any_eq_true]
  · intro h
    simp [checkServicePermission, h]
  · intro svc h hempty
    simp [checkServicePermission, h, hempty]

/-- C6 witness: the union check on the concrete graph: svc-a holds user:get
through role admin, svc-b has zero roles and holds nothing. -/
theorem checkServicePermission_union_iff_witness :
    checkServicePermission db0 "svc-a" "user:get" = true
    ∧ checkServicePermission db0 "svc-b" "user:get" = false :=
  ⟨(checkServicePermission_union_iff db0 "svc-a" "user:get").1.mpr
      ⟨svcA, rfl, adminRole, by simp [svcA], pGet, by simp [adminRole], rfl⟩,
   (checkServicePermission_union_iff db0 "svc-b" "user:get").2.2 svcB rfl rfl⟩

/-- C7: counterexample.  A validly signed token with a wrong audience and a
token whose signature does not verify produce the same generic UNAUTHENTICATED
Invalid service token error: the catch block folds the audience mismatch into
the generic rejection, so no distinct WrongAudience kind exists. -/
theorem wrong_audience_generic_error_cex :
    jv0 "aud-token" = some ⟨"svc-a", "other", "admin"⟩
    ∧ jv0 "garbage" = none
    ∧ verifyServiceToken db0 5 true jv0 "aud-token"
        = .error (.grpcErr .UNAUTHENTICATED "Invalid service token")
    ∧ verifyServiceToken db0 5 true jv0 "garbage"
        = .error (.grpcErr .UNAUTHENTICATED "Invalid service token") :=
  ⟨rfl, rfl, rfl, rfl⟩

/-- C7 (amended): a signed token whose audience differs from grpc_auth is
rejected UNAUTHENTICATED regardless of signature validity, but with the same
generic Invalid service token message as every other token failure, not with a
distinguishing WrongAudience kind. -/
theorem wrong_audience_rejected_unauthenticated (db : Db) (now : Int) (upd : Bool)
    (jv : String → Option ServiceJwtPayload) (token : String)
    (payload : ServiceJwtPayload)
    (hfmt : isApiKeyFormat token = false)
    (hjv : jv token = some payload)
    (haud : payload.aud ≠ "grpc_auth") :
    verifyServiceToken db now upd jv token
      = .error (.grpcErr .UNAUTHENTICATED "Invalid service token") := by
  simp [verifyServiceToken, hfmt, hjv, haud]

/-- C7 witness: the amended statement on the concrete wrong-audience token. -/
theorem wrong_audience_rejected_unauthenticated_witness :
    verifyServiceToken db0 5 true jv0 "aud-token"
      = .error (.grpcErr .UNAUTHENTICATED "Invalid service token") :=
  wrong_audience_rejected_unauthenticated db0 5 true jv0 "aud-token"
    ⟨"svc-a", "other", "admin"⟩ (by decide) rfl (by decide)

/-- C8: confirmed.  At endpoint level with an explicit endpointPermissions
override, the composition is exactly the override-driven wrapping, independent
of the database state, so the store lookup is never consulted even when a
serviceName is also supplied. -/
theorem explicit_override_wins {H : Type} (db db2 : Db) (impl : List (String × H))
    (rr : Option String) (ep : List (String × String)) (sn : String) :
    applyServiceAuthMiddleware db impl
        (OptionsArg.opts ⟨some AuthLevel.endpointLevel, rr, some ep, some sn⟩)
      = requireServiceAuthEndpoint impl ep
    ∧ applyServiceAuthMiddleware db impl
        (OptionsArg.opts ⟨none, rr, some ep, some sn⟩)
      = requireServiceAuthEndpoint impl ep
    ∧ applyServiceAuthMiddleware db impl
        (OptionsArg.opts ⟨some AuthLevel.endpointLevel, rr, some ep, some sn⟩)
      = applyServiceAuthMiddleware db2 impl
        (OptionsArg.opts ⟨some AuthLevel.endpointLevel, rr, some ep, some sn⟩) :=
  ⟨rfl, rfl, rfl⟩

/- Setting isRevoked does not change which keys exist. -/
theorem any_key_map_setRevoked (l : List ApiKey) (key : String) :
    (l.map (fun ak => if ak.key == key then { ak with isRevoked := true } else ak)).any
      (fun ak => ak.key == key) = l.any (fun ak => ak.key == key) := by
  induction l with
  | nil => rfl
  | cons ak l ih =>
    rw [List.map_cons, List.any_cons, List.any_cons, ih]
    by_cases h : ak.key = key <;> simp [h]

theorem apiKeyExists_setRevoked (db : Db) (key : String) :
    apiKeyExists (apiKeySetRevoked db key) key = apiKeyExists db key := by
  simp only [apiKeyExists, apiKeySetRevoked]
  exact any_key_map_setRevoked db.apiKeys key

/- Setting isRevoked twice equals setting it once, per row. -/
theorem map_setRevoked_idem (l : List ApiKey) (key : String) :
    (l.map (fun ak => if ak.key == key then { ak with isRevoked := true } else ak)).map
      (fun ak => if ak.key == key then { ak with isRevoked := true } else ak)
    = l.map (fun ak => if ak.key == key then { ak with isRevoked := true } else ak) := by
  induction l with
  | nil => rfl
  | cons ak l ih =>
    simp only [List.map_cons]
    rw [ih]
    by_cases h : ak.key = key <;> simp [h]

theorem setRevoked_idem (db : Db) (key : String) :
    apiKeySetRevoked (apiKeySetRevoked db key) key = apiKeySetRevoked db key := by
  obtain ⟨s, l, e⟩ := db
  simp only [apiKeySetRevoked]
  exact congrArg (fun x => Db.mk s x e) (map_setRevoked_idem l key)

/-- C9: confirmed.  For a credential present in the store, the first revoke
succeeds setting isRevoked, and a second revoke on the resulting state
succeeds as well and leaves the state exactly as after the first one. -/
theorem revoke_idempotent (db : Db) (key : String)
    (h : apiKeyExists db key = true) :
    revokeApiKey db key = .ok (apiKeySetRevoked db key)
    ∧ revokeApiKey (apiKeySetRevoked db key) key = .ok (apiKeySetRevoked db key) := by
  have h2 : apiKeyExists (apiKeySetRevoked db key) key = true := by
    rw [apiKeyExists_setRevoked]
    exact h
  constructor
  · simp [revokeApiKey, h]
  · simp [revokeApiKey, h2, setRevoked_idem]

/-- C9 witness: double revoke on the concrete stored key. -/
theorem revoke_idempotent_witness :
    revokeApiKey db0 key64 = .ok (apiKeySetRevoked db0 key64)
    ∧ revokeApiKey (apiKeySetRevoked db0 key64) key64
        = .ok (apiKeySetRevoked db0 key64) :=
  revoke_idempotent db0 key64 rfl

/- Filtering out every row keyed by name makes its lookup undefined. -/
theorem lookup_filter_self (name : String) (ep : List (String × String)) :
    List.lookup name (ep.filter (fun kv => kv.1 != name)) = none := by
  induction ep with
  | nil => rfl
  | cons kv ep ih =>
    obtain ⟨a, b⟩ := kv
    by_cases ha : a = name
    · subst ha
      simp [List.filter_cons, ih]
    · have hb : (a != name) = true := by simp [ha]
      have hn : (name == a) = false := by simp [Ne.symm ha]
      simp [List.filter_cons, hb, List.lookup, hn, ih]

/- Filtering out rows keyed by another name does not change a lookup. -/
theorem lookup_filter_ne (n name : String) (ep : List (String × String))
    (h : n ≠ name) :
    List.lookup n (ep.filter (fun kv => kv.1 != name)) = List.lookup n ep := by
  induction ep with
  | nil => rfl
  | cons kv ep ih =>
    obtain ⟨a, b⟩ := kv
    by_cases ha : a = name
    · subst ha
      have hn : (n == a) = false := by simp [h]
      simp [List.filter_cons, List.lookup, hn, ih]
    · have hb : (a != name) = true := by simp [ha]
      simp [List.filter_cons, hb, List.lookup, ih]

/- A row mapping an endpoint to the empty string wraps exactly like no row. -/
theorem wrapEndpoint_filter_empty {H : Type} (ep : List (String × String))
    (name : String) (hlook : List.lookup name ep = some "") (n : String) (h : H) :
    wrapEndpoint ep n h = wrapEndpoint (ep.filter (fun kv => kv.1 != name)) n h := by
  by_cases hn : n = name
  · subst hn
    simp [wrapEndpoint, hlook, lookup_filter_self]
  · simp [wrapEndpoint, lookup_filter_ne n name ep hn]

/-- C10: confirmed.  The presence test on an endpoint permission is a
truthiness check: an endpoint mapped to the empty string gets the original
handler installed unwrapped, and the whole composed map is identical to the one
obtained after deleting that policy row, so the empty-string row is
indistinguishable from no row. -/
theorem empty_permission_unwrapped {H : Type} (impl : List (String × H))
    (ep : List (String × String)) (name : String)
    (hlook : List.lookup name ep = some "") :
    requireServiceAuthEndpoint impl ep
      = requireServiceAuthEndpoint impl (ep.filter (fun kv => kv.1 != name))
    ∧ ∀ h, (name, h) ∈ impl →
        (name, Installed.plain h) ∈ requireServiceAuthEndpoint impl ep := by
  constructor
  · unfold requireServiceAuthEndpoint
    apply List.map_congr_left
    intro nh _
    exact congrArg (fun w => (nh.1, w)) (wrapEndpoint_filter_empty ep name hlook nh.1 nh.2)
  · intro h hmem
    have hw : wrapEndpoint ep name h = Installed.plain h := by
      simp [wrapEndpoint, hlook]
    have hm := List.mem_map_of_mem (fun nh => (nh.1, wrapEndpoint ep nh.1 nh.2)) hmem
    rw [requireServiceAuthEndpoint]
    simpa [hw] using hm

/-- C10 witness: a map with getUser assigned the empty permission equals the
map with the row removed, and getUser is installed unwrapped. -/
theorem empty_permission_unwrapped_witness :
    requireServiceAuthEndpoint [("getUser", ())] [("getUser", "")]
      = requireServiceAuthEndpoint [("getUser", ())]
          (([("getUser", "")] : List (String × String)).filter
            (fun kv => kv.1 != "getUser"))
    ∧ ∀ h, ("getUser", h) ∈ ([("getUser", ())] : List (String × Unit)) →
        ("getUser", Installed.plain h)
          ∈ requireServiceAuthEndpoint [("getUser", ())] [("getUser", "")] :=
  empty_permission_unwrapped [("getUser", ())] [("getUser", "")] "getUser" rfl

/- A positive permission check implies the service resolved. -/
theorem checkServicePermission_resolves (db : Db) (s p : String)
    (h : checkServicePermission db s p = true) :
    ∃ svc, serviceFindUnique db s = some svc := by
  unfold checkServicePermission at h
  cases hfind : serviceFindUnique db s with
  | none => rw [hfind] at h; simp at h
  | some svc => exact ⟨svc, rfl⟩

/- checkServiceRole with no required role succeeds on any resolved service. -/
theorem checkServiceRole_none_ok (db : Db) (s : String) (svc : Service)
    (hfind : serviceFindUnique db s = some svc) :
    checkServiceRole db s none
      = .ok ⟨svc.id, svc.name,
          strOrElse ((svc.serviceRoles.head?).map (fun r => r.name)) "",
          insertionDedup (svc.serviceRoles.flatMap
            (fun r => r.rolePermissions.map (fun rp => rp.name)))⟩ := by
  simp [checkServiceRole, hfind]

/-- C5: confirmed.  Under the per-endpoint composition: an endpoint with no
policy row keeps its original handler and is callable with any metadata,
credential or not; an endpoint with a truthy row rejects a call with no
credential, rejects a call whose resolved identity lacks the mapped permission,
and accepts a call whose identity holds it; every rejection produces a
rejected outcome, in which the business handler is never invoked. -/
theorem perEndpoint_policy_semantics {H : Type} (ep : List (String × String))
    (db : Db) (now : Int) (upd : Bool) (jv : String → Option ServiceJwtPayload)
    (name : String) (h : H) :
    (List.lookup name ep = none →
      ∀ meta, runInstalled (wrapEndpoint ep name h) db now upd jv meta
        = .handledPlain db)
    ∧ (∀ p, List.lookup name ep = some p → p ≠ "" →
        (runInstalled (wrapEndpoint ep name h) db now upd jv []
          = .rejected (.grpcErr .UNAUTHENTICATED "Missing service token") db)
        ∧ ∀ m rest sName isK db1,
            verifyServiceToken db now upd jv (stripBearer m) = .ok ((sName, isK), db1) →
            (checkServicePermission db1 sName p = false →
              runInstalled (wrapEndpoint ep name h) db now upd jv (m :: rest)
                = .rejected (.grpcErr .PERMISSION_DENIED
                    ("Service does not have permission: " ++ p)) db1)
            ∧ (checkServicePermission db1 sName p = true →
              ∃ info, runInstalled (wrapEndpoint ep name h) db now upd jv (m :: rest)
                = .handled info db1))
    ∧ ∀ impl, (name, h) ∈ impl →
        (name, wrapEndpoint ep name h) ∈ requireServiceAuthEndpoint impl ep := by
  refine ⟨?_, ?_, ?_⟩
  · intro hlook meta
    simp [wrapEndpoint, hlook, runInstalled]
  · intro p hlook hp
    have hw : wrapEndpoint ep name h = Installed.withPermission p h := by
      simp [wrapEndpoint, hlook, hp]
    rw [hw]
    constructor
    · rfl
    · intro m rest sName isK db1 hv
      constructor
      · intro hperm
        simp [runInstalled, requireServiceAuthWithPermission, hv, hperm]
      · intro hperm
        obtain ⟨svc, hfind⟩ := checkServicePermission_resolves db1 sName p hperm
        refine ⟨⟨svc.id, svc.name,
          strOrElse ((svc.serviceRoles.head?).map (fun r => r.name)) "",
          insertionDedup (svc.serviceRoles.flatMap
            (fun r => r.rolePermissions.map (fun rp => rp.name)))⟩, ?_⟩
        simp [runInstalled, requireServiceAuthWithPermission, hv, hperm,
          checkServiceRole_none_ok db1 sName svc hfind]
  · intro impl hmem
    exact List.mem_map_of_mem (fun nh => (nh.1, wrapEndpoint ep nh.1 nh.2)) hmem

/-- C5 witness: the four outcomes on the concrete store: an unmapped endpoint
runs plain with no credential, the mapped getUser endpoint rejects an empty
metadata list, rejects the key of roleless svc-b, accepts the key of svc-a,
and the composed map contains the wrapped entry. -/
theorem perEndpoint_policy_semantics_witness :
    runInstalled (wrapEndpoint [("getUser", "user:get")] "listUsers" ()) db0 5 true jv0 []
      = .handledPlain db0
    ∧ runInstalled (wrapEndpoint [("getUser", "user:get")] "getUser" ()) db0 5 true jv0 []
      = .rejected (.grpcErr .UNAUTHENTICATED "Missing service token") db0
    ∧ runInstalled (wrapEndpoint [("getUser", "user:get")] "getUser" ()) db0 5 true jv0 [key64b]
      = .rejected (.grpcErr .PERMISSION_DENIED "Service does not have permission: user:get")
          (apiKeySetLastUsed db0 key64b 5)
    ∧ (∃ info,
        runInstalled (wrapEndpoint [("getUser", "user:get")] "getUser" ()) db0 5 true jv0 [key64]
          = .handled info (apiKeySetLastUsed db0 key64 5))
    ∧ ("getUser", wrapEndpoint [("getUser", "user:get")] "getUser" ())
        ∈ requireServiceAuthEndpoint [("getUser", ())] [("getUser", "user:get")] := by
  have T := perEndpoint_policy_semantics [("getUser", "user:get")] db0 5 true jv0 "getUser" ()
  have T2 := perEndpoint_policy_semantics [("getUser", "user:get")] db0 5 true jv0 "listUsers" ()
  refine ⟨T2.1 rfl [], (T.2.1 "user:get" rfl (by decide)).1, ?_, ?_,
    T.2.2 [("getUser", ())] (List.Mem.head [])⟩
  · exact ((T.2.1 "user:get" rfl (by decide)).2 key64b [] "svc-b" true
      (apiKeySetLastUsed db0 key64b 5) rfl).1 rfl
  · exact ((T.2.1 "user:get" rfl (by decide)).2 key64 [] "svc-a" true
      (apiKeySetLastUsed db0 key64 5) rfl).2 rfl

end GrpcAuth
